import Mathlib

/-!
Shallow embedding of the Tap & Dodge gameplay engine
(`src/tap-dodge-game/components/game/GameEngine.tsx`, with the obstacle
placement of `PhysicsEngine.tsx`), and proofs of the spec's claims about it.

Real-number quantities of the source (positions, sizes, speeds, intervals)
are modelled as rationals.  The runtime screen dimensions
(`Dimensions.get('window')`) are carried as state fields.  Each call to
`Math.random()` in the source becomes an explicit rational argument of the
embedded function (one argument per draw, valued in `[0, 1)` at call sites).
React state cells and refs are collapsed into one record, as the spec's
design notes prescribe; interval handles become boolean "timer running"
flags, set where the source calls `setInterval` and cleared where it calls
`clearInterval`.
-/

namespace TapDodge

/-- Constant `PLAYER_SIZE = 40` from GameEngine.tsx. -/
def PLAYER_SIZE : ℚ := 40

/-- Constant `PLATFORM_HEIGHT = 20` from GameEngine.tsx. -/
def PLATFORM_HEIGHT : ℚ := 20

/-- Constant `OBSTACLE_MIN_WIDTH = 30` from GameEngine.tsx. -/
def OBSTACLE_MIN_WIDTH : ℚ := 30

/-- Constant `OBSTACLE_MAX_WIDTH = 80` from GameEngine.tsx. -/
def OBSTACLE_MAX_WIDTH : ℚ := 80

/-- Constant `OBSTACLE_MIN_HEIGHT = 20` from GameEngine.tsx. -/
def OBSTACLE_MIN_HEIGHT : ℚ := 20

/-- Constant `OBSTACLE_MAX_HEIGHT = 40` from GameEngine.tsx. -/
def OBSTACLE_MAX_HEIGHT : ℚ := 40

/-- Constant `OBSTACLE_SPEED_INITIAL = 3` from GameEngine.tsx. -/
def OBSTACLE_SPEED_INITIAL : ℚ := 3

/-- Constant `OBSTACLE_SPEED_INCREMENT = 0.2` from GameEngine.tsx. -/
def OBSTACLE_SPEED_INCREMENT : ℚ := 1/5

/-- Constant `OBSTACLE_GENERATION_INTERVAL_INITIAL = 2000` (ms) from GameEngine.tsx. -/
def OBSTACLE_GENERATION_INTERVAL_INITIAL : ℚ := 2000

/-- Constant `OBSTACLE_GENERATION_INTERVAL_MIN = 800` (ms) from GameEngine.tsx. -/
def OBSTACLE_GENERATION_INTERVAL_MIN : ℚ := 800

/-- Constant `PLAYER_MOVE_DISTANCE = 70` from GameEngine.tsx. -/
def PLAYER_MOVE_DISTANCE : ℚ := 70

/-- Constant `MAX_OBSTACLES = 20` from GameEngine.tsx (the shared-value pool size). -/
def MAX_OBSTACLES : ℕ := 20

/-- An obstacle record: `{ id, position: { x, y }, size: { width, height } }`
from GameEngine.tsx.  The reanimated shared value holding `y` is modelled as
a plain rational field. -/
structure Obstacle where
  id : ℕ
  x : ℚ
  y : ℚ
  width : ℚ
  height : ℚ
deriving DecidableEq, Repr

/-- The game state enum `'idle' | 'countdown' | 'playing' | 'gameover'`. -/
inductive GState where
  | idle
  | countdown
  | playing
  | gameover
deriving DecidableEq, Repr

/-- The difficulty-related cells of GameEngine.tsx gathered into one record:
`difficultyLevel` (React state), `obstacleSpeed.current` and
`obstacleGenerationInterval.current` (refs). -/
structure DifficultyState where
  level : ℕ
  obstacleSpeed : ℚ
  spawnIntervalMs : ℚ
deriving DecidableEq, Repr

/-- The whole engine state of GameEngine.tsx: screen dimensions, game state,
score, player x position, live obstacles, the next fresh obstacle id,
difficulty cells, the three interval handles modelled as flags, and the log
of `onGameOver(score)` emissions. -/
structure EngineState where
  screenW : ℚ
  screenH : ℚ
  gameState : GState
  score : ℕ
  playerPos : ℚ
  obstacles : List Obstacle
  nextObstacleId : ℕ
  difficulty : DifficultyState
  scoreTimerOn : Bool
  genTimerOn : Bool
  diffTimerOn : Bool
  gameOverEvents : List ℕ
deriving DecidableEq, Repr

/-- `initializeGame` (GameEngine.tsx lines 160-175): enter countdown, reset
score, obstacles, difficulty level, player position, obstacle speed,
generation interval and the id counter. -/
def initializeGame (s : EngineState) : EngineState :=
  { s with
      gameState := .countdown
      score := 0
      obstacles := []
      playerPos := s.screenW / 2 - PLAYER_SIZE / 2
      difficulty :=
        { level := 1
          obstacleSpeed := OBSTACLE_SPEED_INITIAL
          spawnIntervalMs := OBSTACLE_GENERATION_INTERVAL_INITIAL }
      nextObstacleId := 0 }

/-- `increaseDifficulty` (GameEngine.tsx lines 252-278), restricted to its
effect on the difficulty cells: `level + 1`, speed `+ 0.2`, and when the
interval is above the minimum, subtract `Math.min(200, interval - MIN)`. -/
def increaseDifficulty (d : DifficultyState) : DifficultyState :=
  { level := d.level + 1
    obstacleSpeed := d.obstacleSpeed + OBSTACLE_SPEED_INCREMENT
    spawnIntervalMs :=
      if d.spawnIntervalMs > OBSTACLE_GENERATION_INTERVAL_MIN then
        d.spawnIntervalMs -
          min 200 (d.spawnIntervalMs - OBSTACLE_GENERATION_INTERVAL_MIN)
      else d.spawnIntervalMs }

/-- The `deviceType` effect (GameEngine.tsx lines 657-675), tablet branch:
set `obstacleSpeed.current = OBSTACLE_SPEED_INITIAL * 1.2`, and if the
obstacle generator interval handle is live, set the generation interval to
`Math.max(MIN, interval * 0.8)`.  `generatorRunning` models the
`obstacleGeneratorRef.current` truthiness test. -/
def tabletAdjustDifficulty (d : DifficultyState) (generatorRunning : Bool) :
    DifficultyState :=
  { d with
      obstacleSpeed := OBSTACLE_SPEED_INITIAL * (6/5)
      spawnIntervalMs :=
        if generatorRunning then
          max OBSTACLE_GENERATION_INTERVAL_MIN (d.spawnIntervalMs * (4/5))
        else d.spawnIntervalMs }

/-- The x-placement computation of `generateObstacle` (GameEngine.tsx lines
327-348), before the fallback: side-preference branches around a safe zone
of width `PLAYER_SIZE * 2.5` centred on the player.  `r1` is the draw of
the taken placement branch, `r2` the coin of the middle branch.  The
fallback `if (isNaN(x) || x < 0 || x > SCREEN_WIDTH - width) x = random *
(W - width)` follows in `generateObstacleX`; `isNaN` has no rational
counterpart (no arithmetic here produces NaN). -/
def generateObstacleRawX (screenW playerPos width r1 r2 : ℚ) : ℚ :=
  let playerCenter := playerPos + PLAYER_SIZE / 2
  let safeZoneWidth := PLAYER_SIZE * (5/2)
  let safeZoneLeft := max 0 (playerCenter - safeZoneWidth)
  let safeZoneRight := min screenW (playerCenter + safeZoneWidth)
  if playerCenter < screenW / 3 then
    safeZoneRight + r1 * (screenW - safeZoneRight - width)
  else if playerCenter > screenW * 2 / 3 then
    r1 * (safeZoneLeft - width)
  else if r2 > 1/2 then
    r1 * max 0 (safeZoneLeft - width)
  else
    min (screenW - width) safeZoneRight +
      r1 * max 0 (screenW - safeZoneRight - width)

/-- The fallback reassignment closing `generateObstacle`'s placement
(GameEngine.tsx lines 350-353). -/
def generateObstacleX (screenW playerPos width r1 r2 rFB : ℚ) : ℚ :=
  let x := generateObstacleRawX screenW playerPos width r1 r2
  if x < 0 ∨ x > screenW - width then rFB * (screenW - width) else x

/-- `generateObstacle` (GameEngine.tsx lines 316-377): no-op unless playing,
no-op at the `MAX_OBSTACLES` cap, otherwise draw a size, place horizontally
via `generateObstacleX`, start above the screen (`-height - random * 50`),
assign the fresh monotonic id and append.  (The shared-value pool lookup
always succeeds once the pool is initialised, so its guard is not modelled.) -/
def generateObstacle (s : EngineState) (rw rh r1 r2 rFB ry : ℚ) : EngineState :=
  if s.gameState ≠ .playing then s
  else if MAX_OBSTACLES ≤ s.obstacles.length then s
  else
    let width := rw * (OBSTACLE_MAX_WIDTH - OBSTACLE_MIN_WIDTH) + OBSTACLE_MIN_WIDTH
    let height := rh * (OBSTACLE_MAX_HEIGHT - OBSTACLE_MIN_HEIGHT) + OBSTACLE_MIN_HEIGHT
    let x := generateObstacleX s.screenW s.playerPos width r1 r2 rFB
    { s with
        obstacles := s.obstacles ++
          [{ id := s.nextObstacleId, x := x, y := -height - ry * 50,
             width := width, height := height }]
        nextObstacleId := s.nextObstacleId + 1 }

/-- `startGame` (GameEngine.tsx lines 178-221): enter playing, generate the
first obstacle immediately, then start the obstacle generator, the score
counter and the difficulty timer. -/
def startGame (s : EngineState) (rw rh r1 r2 rFB ry : ℚ) : EngineState :=
  let s1 := generateObstacle { s with gameState := .playing } rw rh r1 r2 rFB ry
  { s1 with scoreTimerOn := true, genTimerOn := true, diffTimerOn := true }

/-- One firing of the score interval (GameEngine.tsx lines 213-215):
`setScore(prev => prev + 1)`.  The callback runs only while the interval
exists; `handleGameOver` clears it. -/
def scoreTick (s : EngineState) : EngineState :=
  if s.scoreTimerOn then { s with score := s.score + 1 } else s

/-- `handleGameOver` (GameEngine.tsx lines 281-313): early return when
already in gameover, otherwise enter gameover, stop every interval, and
notify the parent with the current score (`onGameOver(score)`), logged here
as an appended event. -/
def handleGameOver (s : EngineState) : EngineState :=
  if s.gameState = .gameover then s
  else
    { s with
        gameState := .gameover
        scoreTimerOn := false
        genTimerOn := false
        diffTimerOn := false
        gameOverEvents := s.gameOverEvents ++ [s.score] }

/-- One obstacle's position update inside `updateObstaclesWithDelta`:
`obstacle.position.y.value += obstacleSpeed.current * speedFactor`. -/
def moveObstacle (speed factor : ℚ) (o : Obstacle) : Obstacle :=
  { o with y := o.y + speed * factor }

/-- One tick of the motion integrator on a bare obstacle list: every
obstacle advances by `speed * factor`, and only those with updated
`y < SCREEN_HEIGHT` are kept (GameEngine.tsx lines 417-438).  The input pair
is `(speed, speedFactor)`. -/
def integratorStep (screenH : ℚ) (obs : List Obstacle) (inp : ℚ × ℚ) :
    List Obstacle :=
  (obs.map (moveObstacle inp.1 inp.2)).filter (fun o => decide (o.y < screenH))

/-- `updateObstaclesWithDelta` (GameEngine.tsx lines 413-440): no-op unless
playing, otherwise one integrator tick at the current obstacle speed.
(The dropped obstacles' pooled shared values are reset to -100 for reuse;
that touches the pool, not the live set.) -/
def updateObstaclesWithDelta (s : EngineState) (speedFactor : ℚ) : EngineState :=
  if s.gameState ≠ .playing then s
  else
    { s with obstacles :=
        integratorStep s.screenH s.obstacles (s.difficulty.obstacleSpeed, speedFactor) }

/-- Folding the integrator over a whole input sequence of `(speed,
speedFactor)` pairs — the "run" of the claim about replay determinism. -/
def runIntegrator (screenH : ℚ) (obs : List Obstacle) (inputs : List (ℚ × ℚ)) :
    List Obstacle :=
  inputs.foldl (integratorStep screenH) obs

/-- Total vertical advance accumulated over an input sequence. -/
def totalAdvance (inputs : List (ℚ × ℚ)) : ℚ :=
  (inputs.map (fun p => p.1 * p.2)).sum

/-- The per-obstacle test of `checkCollisions` (GameEngine.tsx lines
486-535): the prefilter (`obstacleBottom >= playerTop && obstacleTop <=
playerBottom`) conjoined with the buffered AABB test, hitboxes shrunk by
`collisionBuffer = 5`. -/
def collidesWithPlayer (screenH playerPos : ℚ) (o : Obstacle) : Bool :=
  let playerRight := playerPos + PLAYER_SIZE
  let playerTop := screenH - PLATFORM_HEIGHT - PLAYER_SIZE
  let playerBottom := screenH - PLATFORM_HEIGHT
  let collisionBuffer : ℚ := 5
  let playerHitboxLeft := playerPos + collisionBuffer
  let playerHitboxRight := playerRight - collisionBuffer
  let playerHitboxTop := playerTop + collisionBuffer
  let obstacleTop := o.y
  let obstacleBottom := o.y + o.height
  let obstacleHitboxBottom := obstacleBottom - collisionBuffer
  decide (obstacleBottom ≥ playerTop) && decide (obstacleTop ≤ playerBottom) &&
    decide (playerHitboxRight > o.x) &&
    decide (playerHitboxLeft < o.x + o.width) &&
    decide (playerHitboxTop < obstacleHitboxBottom) &&
    decide (playerBottom > obstacleTop)

/-- `checkCollisions` (GameEngine.tsx lines 486-535): no-op unless playing;
otherwise, if any live obstacle passes the collision test, the first hit
triggers `handleGameOver` (the loop breaks after the first collision, so
`handleGameOver` runs at most once per sweep). -/
def checkCollisions (s : EngineState) : EngineState :=
  if s.gameState ≠ .playing then s
  else if s.obstacles.any (collidesWithPlayer s.screenH s.playerPos) then
    handleGameOver s
  else s

/-- `handleTap` (GameEngine.tsx lines 538-589), state-relevant part: a tap
in idle runs `initializeGame`; taps in countdown or gameover are ignored;
in playing, a tap left of the screen centre moves the player to
`Math.max(0, pos - 70)` and a tap right of it to
`Math.min(SCREEN_WIDTH - PLAYER_SIZE, pos + 70)` (the spring animation
settles at exactly that target). -/
def handleTap (s : EngineState) (tapX : ℚ) : EngineState :=
  if s.gameState = .idle then initializeGame s
  else if s.gameState ≠ .playing then s
  else if tapX < s.screenW / 2 then
    { s with playerPos := max 0 (s.playerPos - PLAYER_MOVE_DISTANCE) }
  else
    { s with playerPos := min (s.screenW - PLAYER_SIZE) (s.playerPos + PLAYER_MOVE_DISTANCE) }

/-- The bounded-retry fallback of `ObstacleGenerator` (PhysicsEngine.tsx
lines 134-146): draw `x = random * (W - width)`; while the obstacle centre
is within `PLAYER_SIZE` of the player centre and attempts remain, redraw;
accept the last attempt regardless.  The list carries the available draws
(five in the source). -/
def physFallbackX (screenW width playerCenter : ℚ) : List ℚ → ℚ
  | [] => 0
  | r :: rs =>
    let x := r * (screenW - width)
    if |x + width / 2 - playerCenter| < PLAYER_SIZE ∧ rs ≠ [] then
      physFallbackX screenW width playerCenter rs
    else x

/-- The left edge `max(0, playerLeft - safeZoneWidth/2)` of the
PhysicsEngine safe zone of width `PLAYER_SIZE * (3 - dm * 0.5)` around the
player (PhysicsEngine.tsx lines 106-107). -/
def physSafeZoneLeft (playerX dm : ℚ) : ℚ :=
  max 0 (playerX - PLAYER_SIZE / 2 - PLAYER_SIZE * (3 - dm * (1/2)) / 2)

/-- The right edge `min(SCREEN_WIDTH, playerRight + safeZoneWidth/2)` of the
PhysicsEngine safe zone (PhysicsEngine.tsx line 108). -/
def physSafeZoneRight (screenW playerX dm : ℚ) : ℚ :=
  min screenW (playerX + PLAYER_SIZE / 2 + PLAYER_SIZE * (3 - dm * (1/2)) / 2)

/-- The x-placement of `ObstacleGenerator` (PhysicsEngine.tsx lines
100-146), continued: placement on whichever side of the safe zone has room
for `width`, biased by the free-space share when both do, and the
bounded-retry fallback when neither does.  `dm` is
`difficultyMultiplier`, `rSide` the side coin, `rPlace` the draw of the
taken placement branch. -/
def physicsObstacleX (screenW playerX width dm rSide rPlace : ℚ)
    (rFB : List ℚ) : ℚ :=
  let leftSpace := physSafeZoneLeft playerX dm
  let rightSpace := screenW - physSafeZoneRight screenW playerX dm
  if width ≤ leftSpace ∧ width ≤ rightSpace then
    let leftShare := leftSpace / (leftSpace + rightSpace)
    if rSide < leftShare then rPlace * (leftSpace - width)
    else physSafeZoneRight screenW playerX dm + rPlace * (rightSpace - width)
  else if width ≤ leftSpace then rPlace * (leftSpace - width)
  else if width ≤ rightSpace then
    physSafeZoneRight screenW playerX dm + rPlace * (rightSpace - width)
  else physFallbackX screenW width playerX rFB

/-! Concrete states used to instantiate the claim theorems. -/

/-- A concrete idle state on a 400 x 800 screen, player at the left edge. -/
def exIdle : EngineState :=
  { screenW := 400, screenH := 800, gameState := .idle, score := 0,
    playerPos := 0, obstacles := [], nextObstacleId := 0,
    difficulty := ⟨1, 3, 2000⟩, scoreTimerOn := false, genTimerOn := false,
    diffTimerOn := false, gameOverEvents := [] }

/-- A concrete playing state with one live obstacle just above the bottom
edge of the screen. -/
def exPlaying : EngineState :=
  { screenW := 400, screenH := 800, gameState := .playing, score := 0,
    playerPos := 180, obstacles := [⟨0, 100, 798, 50, 40⟩], nextObstacleId := 1,
    difficulty := ⟨1, 3, 2000⟩, scoreTimerOn := true, genTimerOn := true,
    diffTimerOn := true, gameOverEvents := [] }

/-- A concrete gameover state reached after one emitted final score. -/
def exGameOver : EngineState :=
  { screenW := 400, screenH := 800, gameState := .gameover, score := 7,
    playerPos := 180, obstacles := [⟨3, 150, 760, 50, 40⟩], nextObstacleId := 4,
    difficulty := ⟨2, 16/5, 1800⟩, scoreTimerOn := false, genTimerOn := false,
    diffTimerOn := false, gameOverEvents := [7] }

/-! Shared helper lemmas. -/

/-- One difficulty tick never decreases the obstacle speed. -/
theorem increaseDifficulty_speed_mono (d : DifficultyState) :
    d.obstacleSpeed ≤ (increaseDifficulty d).obstacleSpeed := by
  simp only [increaseDifficulty, OBSTACLE_SPEED_INCREMENT]
  linarith

/-- Membership in the post-tick live set: exactly the advanced obstacles
whose updated `y` is still strictly below the screen height. -/
theorem updateObstacles_mem (s : EngineState) (f : ℚ)
    (h : s.gameState = .playing) (o : Obstacle) :
    o ∈ (updateObstaclesWithDelta s f).obstacles ↔
      ((∃ o₀ ∈ s.obstacles, o = moveObstacle s.difficulty.obstacleSpeed f o₀) ∧
        o.y < s.screenH) := by
  simp only [updateObstaclesWithDelta, h]
  simp only [integratorStep, List.mem_filter, List.mem_map, decide_eq_true_eq,
    reduceCtorEq, not_false_eq_true, ne_eq, ite_false, not_true_eq_false]
  constructor
  · rintro ⟨⟨o₀, ho₀, rfl⟩, hy⟩
    exact ⟨⟨o₀, ho₀, rfl⟩, hy⟩
  · rintro ⟨⟨o₀, ho₀, rfl⟩, hy⟩
    exact ⟨⟨o₀, ho₀, rfl⟩, hy⟩

/-! Claim C2. -/

/-- Claim C2: one difficulty tick, applied to a difficulty state whose
interval respects the floor, yields exactly `level + 1`,
`obstacleSpeed + SPEED_INCREMENT` (no upper bound is applied), and
`spawnIntervalMs' = max(MIN, interval - min(200, interval - MIN))`. -/
theorem increaseDifficulty_spec (d : DifficultyState)
    (h : OBSTACLE_GENERATION_INTERVAL_MIN ≤ d.spawnIntervalMs) :
    (increaseDifficulty d).level = d.level + 1 ∧
    (increaseDifficulty d).obstacleSpeed = d.obstacleSpeed + OBSTACLE_SPEED_INCREMENT ∧
    (increaseDifficulty d).spawnIntervalMs =
      max OBSTACLE_GENERATION_INTERVAL_MIN
        (d.spawnIntervalMs -
          min 200 (d.spawnIntervalMs - OBSTACLE_GENERATION_INTERVAL_MIN)) := by
  refine ⟨rfl, rfl, ?_⟩
  simp only [increaseDifficulty]
  split_ifs with hgt
  · rw [max_eq_right]
    have hm := min_le_right (200 : ℚ)
      (d.spawnIntervalMs - OBSTACLE_GENERATION_INTERVAL_MIN)
    linarith
  · have heq : d.spawnIntervalMs = OBSTACLE_GENERATION_INTERVAL_MIN :=
      le_antisymm (not_lt.mp hgt) h
    rw [heq]
    simp

/-- Witness for C2 at the initial difficulty state. -/
theorem increaseDifficulty_spec_witness :
    (increaseDifficulty ⟨1, 3, 2000⟩).level = 1 + 1 ∧
    (increaseDifficulty ⟨1, 3, 2000⟩).obstacleSpeed = 3 + OBSTACLE_SPEED_INCREMENT ∧
    (increaseDifficulty ⟨1, 3, 2000⟩).spawnIntervalMs =
      max OBSTACLE_GENERATION_INTERVAL_MIN
        (2000 - min 200 (2000 - OBSTACLE_GENERATION_INTERVAL_MIN)) :=
  increaseDifficulty_spec ⟨1, 3, 2000⟩
    (by norm_num [OBSTACLE_GENERATION_INTERVAL_MIN])

/-! Claim C7. -/

/-- Claim C7: game-over handling is idempotent.  Once the state is
gameover, `handleGameOver` and `checkCollisions` are both the identity: no
further `gameOver` event is emitted and nothing (state, score, events)
changes. -/
theorem gameover_idempotent (s : EngineState) (h : s.gameState = .gameover) :
    handleGameOver s = s ∧ checkCollisions s = s := by
  constructor
  · simp [handleGameOver, h]
  · simp [checkCollisions, h]

/-- Witness for C7 at a concrete gameover state. -/
theorem gameover_idempotent_witness :
    handleGameOver exGameOver = exGameOver ∧
    checkCollisions exGameOver = exGameOver :=
  gameover_idempotent exGameOver rfl

/-! Claim C8. -/

/-- Counterexample to C8: the `deviceType` effect also touches the
difficulty state within a run, and it can decrease `obstacleSpeed`.  After
four difficulty ticks the speed is `3.8`; the tablet adjustment then
overwrites it with `OBSTACLE_SPEED_INITIAL * 1.2 = 3.6`, a decrease. -/
theorem difficulty_monotone_counterexample :
    (tabletAdjustDifficulty
        (increaseDifficulty (increaseDifficulty (increaseDifficulty
          (increaseDifficulty ⟨1, 3, 2000⟩)))) true).obstacleSpeed <
      (increaseDifficulty (increaseDifficulty (increaseDifficulty
        (increaseDifficulty ⟨1, 3, 2000⟩)))).obstacleSpeed := by
  norm_num [increaseDifficulty, tabletAdjustDifficulty,
    OBSTACLE_SPEED_INCREMENT, OBSTACLE_SPEED_INITIAL]

/-- Claim C8 amended: within a single run, `increaseDifficulty` never
decreases `obstacleSpeed`; both `increaseDifficulty` and the tablet
adjustment never increase `spawnIntervalMs` and preserve
`spawnIntervalMs ≥ MIN_SPAWN_INTERVAL` — but the tablet adjustment can
decrease `obstacleSpeed` (it overwrites it with `3.6`). -/
theorem difficulty_monotone_amended :
    (∀ d : DifficultyState,
        d.obstacleSpeed ≤ (increaseDifficulty d).obstacleSpeed) ∧
    (∀ d : DifficultyState,
        (increaseDifficulty d).spawnIntervalMs ≤ d.spawnIntervalMs) ∧
    (∀ d : DifficultyState,
        OBSTACLE_GENERATION_INTERVAL_MIN ≤ d.spawnIntervalMs →
          OBSTACLE_GENERATION_INTERVAL_MIN ≤ (increaseDifficulty d).spawnIntervalMs) ∧
    (∀ (d : DifficultyState) (b : Bool),
        OBSTACLE_GENERATION_INTERVAL_MIN ≤ d.spawnIntervalMs →
          (tabletAdjustDifficulty d b).spawnIntervalMs ≤ d.spawnIntervalMs ∧
          OBSTACLE_GENERATION_INTERVAL_MIN ≤
            (tabletAdjustDifficulty d b).spawnIntervalMs) := by
  refine ⟨increaseDifficulty_speed_mono, ?_, ?_, ?_⟩
  · intro d
    simp only [increaseDifficulty]
    split_ifs with hgt
    · have h0 : (0 : ℚ) ≤ min 200 (d.spawnIntervalMs - OBSTACLE_GENERATION_INTERVAL_MIN) :=
        le_min (by norm_num) (by linarith)
      linarith
    · exact le_refl _
  · intro d h
    simp only [increaseDifficulty]
    split_ifs with hgt
    · have hm := min_le_right (200 : ℚ)
        (d.spawnIntervalMs - OBSTACLE_GENERATION_INTERVAL_MIN)
      linarith
    · exact h
  · intro d b h
    cases b with
    | false => exact ⟨le_refl _, h⟩
    | true =>
      simp only [tabletAdjustDifficulty, OBSTACLE_GENERATION_INTERVAL_MIN] at h ⊢
      constructor
      · exact max_le (by linarith) (by linarith)
      · exact le_max_left _ _

/-- Witness for C8's amended claim at the initial difficulty state. -/
theorem difficulty_monotone_amended_witness :
    (⟨1, 3, 2000⟩ : DifficultyState).obstacleSpeed ≤
        (increaseDifficulty ⟨1, 3, 2000⟩).obstacleSpeed ∧
    (increaseDifficulty ⟨1, 3, 2000⟩).spawnIntervalMs ≤
        (⟨1, 3, 2000⟩ : DifficultyState).spawnIntervalMs ∧
    OBSTACLE_GENERATION_INTERVAL_MIN ≤
        (increaseDifficulty ⟨1, 3, 2000⟩).spawnIntervalMs ∧
    (tabletAdjustDifficulty ⟨1, 3, 2000⟩ true).spawnIntervalMs ≤
        (⟨1, 3, 2000⟩ : DifficultyState).spawnIntervalMs ∧
    OBSTACLE_GENERATION_INTERVAL_MIN ≤
        (tabletAdjustDifficulty ⟨1, 3, 2000⟩ true).spawnIntervalMs :=
  ⟨difficulty_monotone_amended.1 ⟨1, 3, 2000⟩,
   difficulty_monotone_amended.2.1 ⟨1, 3, 2000⟩,
   difficulty_monotone_amended.2.2.1 ⟨1, 3, 2000⟩
     (by norm_num [OBSTACLE_GENERATION_INTERVAL_MIN]),
   (difficulty_monotone_amended.2.2.2 ⟨1, 3, 2000⟩ true
     (by norm_num [OBSTACLE_GENERATION_INTERVAL_MIN])).1,
   (difficulty_monotone_amended.2.2.2 ⟨1, 3, 2000⟩ true
     (by norm_num [OBSTACLE_GENERATION_INTERVAL_MIN])).2⟩

/-! Claim C1. -/

/-- A spawn attempt made at the cap is a no-op (GameEngine.tsx line 321). -/
theorem generateObstacle_at_cap (s : EngineState)
    (h : s.obstacles.length = MAX_OBSTACLES) (q1 q2 q3 q4 q5 q6 : ℚ) :
    generateObstacle s q1 q2 q3 q4 q5 q6 = s := by
  unfold generateObstacle
  by_cases hp : s.gameState ≠ .playing
  · rw [if_pos hp]
  · rw [if_neg hp, if_pos (le_of_eq h.symm)]

/-- Folding any sequence of spawn attempts over a state at the cap leaves
the state unchanged. -/
theorem generateObstacle_fold_at_cap (s : EngineState)
    (h : s.obstacles.length = MAX_OBSTACLES)
    (draws : List (ℚ × ℚ × ℚ × ℚ × ℚ × ℚ)) :
    draws.foldl
        (fun t q => generateObstacle t q.1 q.2.1 q.2.2.1 q.2.2.2.1 q.2.2.2.2.1 q.2.2.2.2.2)
        s = s := by
  induction draws with
  | nil => rfl
  | cons d ds ih =>
    rw [List.foldl_cons, generateObstacle_at_cap s h]
    exact ih

/-- Claim C1: the live-obstacle count never exceeds `MAX_OBSTACLES`: a
spawn preserves the bound, a motion tick never grows the set, a spawn
attempt at the cap creates no obstacle, and ten consecutive spawn attempts
made at the cap create zero obstacles. -/
theorem obstacle_cap (s : EngineState) :
    (∀ q1 q2 q3 q4 q5 q6 : ℚ, s.obstacles.length ≤ MAX_OBSTACLES →
        (generateObstacle s q1 q2 q3 q4 q5 q6).obstacles.length ≤ MAX_OBSTACLES) ∧
    (∀ f : ℚ, s.obstacles.length ≤ MAX_OBSTACLES →
        (updateObstaclesWithDelta s f).obstacles.length ≤ MAX_OBSTACLES) ∧
    (∀ q1 q2 q3 q4 q5 q6 : ℚ, s.obstacles.length = MAX_OBSTACLES →
        generateObstacle s q1 q2 q3 q4 q5 q6 = s) ∧
    (∀ draws : List (ℚ × ℚ × ℚ × ℚ × ℚ × ℚ), draws.length = 10 →
        s.obstacles.length = MAX_OBSTACLES →
        draws.foldl
            (fun t q =>
              generateObstacle t q.1 q.2.1 q.2.2.1 q.2.2.2.1 q.2.2.2.2.1 q.2.2.2.2.2)
            s = s) := by
  refine ⟨?_, ?_, fun q1 q2 q3 q4 q5 q6 h => generateObstacle_at_cap s h q1 q2 q3 q4 q5 q6,
    fun draws _ h => generateObstacle_fold_at_cap s h draws⟩
  · intro q1 q2 q3 q4 q5 q6 hle
    unfold generateObstacle
    by_cases hp : s.gameState ≠ .playing
    · rw [if_pos hp]; exact hle
    · rw [if_neg hp]
      by_cases hcap : MAX_OBSTACLES ≤ s.obstacles.length
      · rw [if_pos hcap]; exact hle
      · rw [if_neg hcap]
        simpa using Nat.succ_le_of_lt (Nat.lt_of_not_le hcap)
  · intro f hle
    unfold updateObstaclesWithDelta
    by_cases hp : s.gameState ≠ .playing
    · rw [if_pos hp]; exact hle
    · rw [if_neg hp]
      calc (integratorStep s.screenH s.obstacles
              (s.difficulty.obstacleSpeed, f)).length
          ≤ (s.obstacles.map
              (moveObstacle s.difficulty.obstacleSpeed f)).length :=
            List.length_filter_le _ _
        _ = s.obstacles.length := List.length_map _ _
        _ ≤ MAX_OBSTACLES := hle

/-- A concrete playing state holding exactly `MAX_OBSTACLES` live
obstacles. -/
def exAtCap : EngineState :=
  { exPlaying with
      obstacles := (List.range MAX_OBSTACLES).map fun i =>
        { id := i, x := 0, y := 0, width := 30, height := 20 }
      nextObstacleId := MAX_OBSTACLES }

/-- Witness for C1 at a playing state with exactly 20 live obstacles. -/
theorem obstacle_cap_witness :
    (generateObstacle exAtCap 0 0 0 0 0 0).obstacles.length ≤ MAX_OBSTACLES ∧
    (updateObstaclesWithDelta exAtCap 1).obstacles.length ≤ MAX_OBSTACLES ∧
    generateObstacle exAtCap 0 0 0 0 0 0 = exAtCap ∧
    (List.replicate 10
        ((0 : ℚ), (0 : ℚ), (0 : ℚ), (0 : ℚ), (0 : ℚ), (0 : ℚ))).foldl
        (fun t q =>
          generateObstacle t q.1 q.2.1 q.2.2.1 q.2.2.2.1 q.2.2.2.2.1 q.2.2.2.2.2)
        exAtCap = exAtCap :=
  ⟨(obstacle_cap exAtCap).1 0 0 0 0 0 0 (by simp [exAtCap, exPlaying]),
   (obstacle_cap exAtCap).2.1 1 (by simp [exAtCap, exPlaying]),
   (obstacle_cap exAtCap).2.2.1 0 0 0 0 0 0 (by simp [exAtCap, exPlaying]),
   (obstacle_cap exAtCap).2.2.2 _ (by simp) (by simp [exAtCap, exPlaying])⟩

/-! Claim C3. -/

/-- Counterexample to C3: the integrator of GameEngine.tsx removes an
obstacle as soon as its updated top `y` reaches `SCREEN_HEIGHT`, with no
exit buffer.  Here the obstacle's updated `y` is `801 ≤ screenHeight +
height = 840`, yet it is removed from the live set. -/
theorem obstacle_exit_counterexample :
    (updateObstaclesWithDelta exPlaying 1).obstacles = [] ∧
    (moveObstacle exPlaying.difficulty.obstacleSpeed 1
        ⟨0, 100, 798, 50, 40⟩).y ≤
      exPlaying.screenH + (⟨0, 100, 798, 50, 40⟩ : Obstacle).height := by
  constructor
  · norm_num [updateObstaclesWithDelta, integratorStep, moveObstacle,
      exPlaying, List.filter]
  · norm_num [moveObstacle, exPlaying]

/-- Claim C3 amended: the motion integrator keeps exactly the obstacles
whose updated `y` is strictly below `screenHeight`; an obstacle is removed
as soon as `y ≥ screenHeight` (there is no `+ height` exit buffer in the
GameEngine integrator). -/
theorem obstacle_exit_amended (s : EngineState) (f : ℚ)
    (h : s.gameState = .playing) (o : Obstacle) :
    o ∈ (updateObstaclesWithDelta s f).obstacles ↔
      ((∃ o₀ ∈ s.obstacles, o = moveObstacle s.difficulty.obstacleSpeed f o₀) ∧
        o.y < s.screenH) :=
  updateObstacles_mem s f h o

/-- Witness for C3's amended claim: the surviving obstacle of a concrete
tick is characterised by the amended boundary. -/
theorem obstacle_exit_amended_witness :
    (⟨0, 100, 799, 50, 40⟩ : Obstacle) ∈
        (updateObstaclesWithDelta exPlaying (1/3)).obstacles ↔
      ((∃ o₀ ∈ exPlaying.obstacles,
          (⟨0, 100, 799, 50, 40⟩ : Obstacle) =
            moveObstacle exPlaying.difficulty.obstacleSpeed (1/3) o₀) ∧
        (⟨0, 100, 799, 50, 40⟩ : Obstacle).y < exPlaying.screenH) :=
  obstacle_exit_amended exPlaying (1/3) rfl ⟨0, 100, 799, 50, 40⟩

/-! Claim C6. -/

/-- Counterexample to C6: a tap arriving in the idle state is not position
preserving — `handleTap` treats it as the start command, and
`initializeGame` resets the player from `x = 0` to the screen centre. -/
theorem movement_command_counterexample :
    (handleTap exIdle 10).playerPos ≠ exIdle.playerPos := by
  norm_num [handleTap, initializeGame, exIdle, PLAYER_SIZE]

/-- Claim C6 amended: in playing, a tap moves the player by
`PLAYER_MOVE_DISTANCE` clamped to `[0, screenWidth - PLAYER_SIZE]` (a left
move from `x = 0` stays at `0`); taps in countdown or gameover leave the
state unchanged with no error; but a tap in idle acts as the start command
(`initializeGame`), which resets the player position to the screen centre
rather than leaving it unchanged. -/
theorem movement_commands_amended :
    (∀ (s : EngineState) (tapX : ℚ), s.gameState = .playing →
        tapX < s.screenW / 2 →
        (handleTap s tapX).playerPos =
          max 0 (s.playerPos - PLAYER_MOVE_DISTANCE)) ∧
    (∀ (s : EngineState) (tapX : ℚ), s.gameState = .playing →
        ¬ tapX < s.screenW / 2 →
        (handleTap s tapX).playerPos =
          min (s.screenW - PLAYER_SIZE) (s.playerPos + PLAYER_MOVE_DISTANCE)) ∧
    (∀ (s : EngineState) (tapX : ℚ), s.gameState = .playing →
        0 ≤ s.playerPos → s.playerPos ≤ s.screenW - PLAYER_SIZE →
        0 ≤ (handleTap s tapX).playerPos ∧
          (handleTap s tapX).playerPos ≤ s.screenW - PLAYER_SIZE) ∧
    (∀ (s : EngineState) (tapX : ℚ), s.gameState = .playing →
        s.playerPos = 0 → tapX < s.screenW / 2 →
        (handleTap s tapX).playerPos = 0) ∧
    (∀ (s : EngineState) (tapX : ℚ),
        s.gameState = .countdown ∨ s.gameState = .gameover →
        handleTap s tapX = s) ∧
    (∀ (s : EngineState) (tapX : ℚ), s.gameState = .idle →
        handleTap s tapX = initializeGame s) := by
  have hleft : ∀ (s : EngineState) (tapX : ℚ), s.gameState = .playing →
      tapX < s.screenW / 2 →
      handleTap s tapX =
        { s with playerPos := max 0 (s.playerPos - PLAYER_MOVE_DISTANCE) } := by
    intro s tapX hs htap
    simp only [handleTap, hs]
    rw [if_neg (by simp), if_neg (by simp), if_pos htap]
  have hright : ∀ (s : EngineState) (tapX : ℚ), s.gameState = .playing →
      ¬ tapX < s.screenW / 2 →
      handleTap s tapX =
        { s with
            playerPos :=
              min (s.screenW - PLAYER_SIZE) (s.playerPos + PLAYER_MOVE_DISTANCE) } := by
    intro s tapX hs htap
    simp only [handleTap, hs]
    rw [if_neg (by simp), if_neg (by simp), if_neg htap]
  refine ⟨?_, ?_, ?_, ?_, ?_, ?_⟩
  · intro s tapX hs htap
    rw [hleft s tapX hs htap]
  · intro s tapX hs htap
    rw [hright s tapX hs htap]
  · intro s tapX hs h0 h1
    have hps : (0 : ℚ) ≤ s.screenW - PLAYER_SIZE := le_trans h0 h1
    by_cases htap : tapX < s.screenW / 2
    · rw [hleft s tapX hs htap]
      exact ⟨le_max_left _ _,
        max_le hps
          (le_trans (sub_le_self _ (by norm_num [PLAYER_MOVE_DISTANCE])) h1)⟩
    · rw [hright s tapX hs htap]
      exact ⟨le_min hps
          (le_trans h0 (le_add_of_nonneg_right (by norm_num [PLAYER_MOVE_DISTANCE]))),
        min_le_left _ _⟩
  · intro s tapX hs h0 htap
    rw [hleft s tapX hs htap]
    simp only [h0]
    norm_num [PLAYER_MOVE_DISTANCE]
  · intro s tapX hs
    rcases hs with hs | hs <;>
      · simp only [handleTap, hs]
        rw [if_neg (by simp), if_pos (by simp)]
  · intro s tapX hs
    simp [handleTap, hs]

/-- Witness for C6's amended claim at a concrete playing state (player at
`x = 180` on a 400-wide screen) and a concrete countdown state. -/
theorem movement_commands_amended_witness :
    (handleTap exPlaying 10).playerPos =
        max 0 (exPlaying.playerPos - PLAYER_MOVE_DISTANCE) ∧
    (handleTap exPlaying 300).playerPos =
        min (exPlaying.screenW - PLAYER_SIZE)
          (exPlaying.playerPos + PLAYER_MOVE_DISTANCE) ∧
    (0 ≤ (handleTap exPlaying 10).playerPos ∧
      (handleTap exPlaying 10).playerPos ≤
        exPlaying.screenW - PLAYER_SIZE) ∧
    (handleTap { exPlaying with playerPos := 0 } 10).playerPos = 0 ∧
    handleTap { exPlaying with gameState := .countdown } 10 =
        { exPlaying with gameState := .countdown } ∧
    handleTap exIdle 10 = initializeGame exIdle :=
  ⟨movement_commands_amended.1 exPlaying 10 rfl (by norm_num [exPlaying]),
   movement_commands_amended.2.1 exPlaying 300 rfl (by norm_num [exPlaying]),
   movement_commands_amended.2.2.1 exPlaying 10 rfl
     (by norm_num [exPlaying]) (by norm_num [exPlaying, PLAYER_SIZE]),
   movement_commands_amended.2.2.2.1 _ 10 rfl rfl (by norm_num [exPlaying]),
   movement_commands_amended.2.2.2.2.1 _ 10 (Or.inl rfl),
   movement_commands_amended.2.2.2.2.2 exIdle 10 rfl⟩

/-! Claim C10. -/

/-- Claim C10: the motion update only moves live obstacles downward.  With
a non-negative speed factor and obstacle speed, every obstacle kept by a
tick has the same id as and a `y` no smaller than its pre-tick original;
the speed starts at the positive `OBSTACLE_SPEED_INITIAL`, a difficulty
tick only increments it, and both difficulty operations preserve its
positivity. -/
theorem obstacle_y_monotone :
    (∀ (s : EngineState) (f : ℚ), 0 ≤ f → 0 ≤ s.difficulty.obstacleSpeed →
        ∀ o ∈ (updateObstaclesWithDelta s f).obstacles,
          ∃ o₀ ∈ s.obstacles, o.id = o₀.id ∧ o₀.y ≤ o.y) ∧
    (0 < OBSTACLE_SPEED_INITIAL) ∧
    (∀ d : DifficultyState,
        d.obstacleSpeed ≤ (increaseDifficulty d).obstacleSpeed) ∧
    (∀ (d : DifficultyState) (b : Bool), 0 < d.obstacleSpeed →
        0 < (increaseDifficulty d).obstacleSpeed ∧
        0 < (tabletAdjustDifficulty d b).obstacleSpeed) := by
  refine ⟨?_, by norm_num [OBSTACLE_SPEED_INITIAL],
    increaseDifficulty_speed_mono, ?_⟩
  · intro s f hf hspeed o ho
    by_cases hp : s.gameState = .playing
    · rw [updateObstacles_mem s f hp] at ho
      obtain ⟨⟨o₀, ho₀, rfl⟩, _⟩ := ho
      refine ⟨o₀, ho₀, rfl, ?_⟩
      simp only [moveObstacle]
      nlinarith
    · have : updateObstaclesWithDelta s f = s := by
        simp [updateObstaclesWithDelta, hp]
      rw [this] at ho
      exact ⟨o, ho, rfl, le_refl _⟩
  · intro d b hd
    constructor
    · have := increaseDifficulty_speed_mono d
      linarith
    · simp only [tabletAdjustDifficulty, OBSTACLE_SPEED_INITIAL]
      norm_num

/-- Witness for C10 at a concrete tick that keeps one obstacle. -/
theorem obstacle_y_monotone_witness :
    (∀ o ∈ (updateObstaclesWithDelta exPlaying (1/3)).obstacles,
        ∃ o₀ ∈ exPlaying.obstacles, o.id = o₀.id ∧ o₀.y ≤ o.y) ∧
    (0 < (⟨1, 3, 2000⟩ : DifficultyState).obstacleSpeed →
        0 < (increaseDifficulty ⟨1, 3, 2000⟩).obstacleSpeed ∧
        0 < (tabletAdjustDifficulty ⟨1, 3, 2000⟩ true).obstacleSpeed) :=
  ⟨obstacle_y_monotone.1 exPlaying (1/3) (by norm_num)
      (by norm_num [exPlaying]),
   obstacle_y_monotone.2.2.2 ⟨1, 3, 2000⟩ true⟩

/-! Claim C5. -/

/-- Every obstacle surviving a whole integrator run is an initial obstacle
advanced by exactly the total of `speed * factor` over the input sequence,
with all other fields unchanged. -/
theorem runIntegrator_mem (H : ℚ) (ins : List (ℚ × ℚ)) :
    ∀ (obs : List Obstacle) (o : Obstacle), o ∈ runIntegrator H obs ins →
      ∃ o₀ ∈ obs, o.id = o₀.id ∧ o.x = o₀.x ∧ o.width = o₀.width ∧
        o.height = o₀.height ∧ o.y = o₀.y + totalAdvance ins := by
  induction ins with
  | nil =>
    intro obs o ho
    exact ⟨o, ho, rfl, rfl, rfl, rfl, by simp [totalAdvance]⟩
  | cons i ins ih =>
    intro obs o ho
    have ho' : o ∈ runIntegrator H (integratorStep H obs i) ins := ho
    obtain ⟨o₁, ho₁, hid, hx, hw, hh, hy⟩ := ih _ o ho'
    rcases List.mem_filter.mp ho₁ with ⟨hmem, _⟩
    obtain ⟨o₀, ho₀, rfl⟩ := List.mem_map.mp hmem
    refine ⟨o₀, ho₀, hid, hx, hw, hh, ?_⟩
    simp only [moveObstacle] at hy
    simp only [totalAdvance, List.map_cons, List.sum_cons] at hy ⊢
    linarith

/-- Claim C5: motion integration is replay-deterministic.  The multi-step
run is a pure function of the initial obstacle set and the `(speed,
speedFactor)` input sequence — equal inputs give equal runs — and every
surviving obstacle's final `y` is its initial `y` plus the total advance of
that input sequence, so final positions and the expired set are fixed by
the inputs alone. -/
theorem motion_determinism :
    (∀ (H : ℚ) (obs1 obs2 : List Obstacle) (ins1 ins2 : List (ℚ × ℚ)),
        obs1 = obs2 → ins1 = ins2 →
        runIntegrator H obs1 ins1 = runIntegrator H obs2 ins2) ∧
    (∀ (H : ℚ) (obs : List Obstacle) (ins : List (ℚ × ℚ)) (o : Obstacle),
        o ∈ runIntegrator H obs ins →
        ∃ o₀ ∈ obs, o.id = o₀.id ∧ o.x = o₀.x ∧ o.width = o₀.width ∧
          o.height = o₀.height ∧ o.y = o₀.y + totalAdvance ins) ∧
    (∀ (s : EngineState) (f : ℚ), s.gameState = .playing →
        (updateObstaclesWithDelta s f).obstacles =
          runIntegrator s.screenH s.obstacles [(s.difficulty.obstacleSpeed, f)]) := by
  refine ⟨?_, fun H obs ins o => runIntegrator_mem H ins obs o, ?_⟩
  · intro H obs1 obs2 ins1 ins2 hobs hins
    rw [hobs, hins]
  · intro s f h
    simp [updateObstaclesWithDelta, h, runIntegrator]

/-- Witness for C5 on a concrete one-obstacle, one-input run. -/
theorem motion_determinism_witness :
    (runIntegrator 800 [⟨0, 10, 5, 30, 20⟩] [(3, 2)] =
        runIntegrator 800 [⟨0, 10, 5, 30, 20⟩] [(3, 2)]) ∧
    (∃ o₀ ∈ [(⟨0, 10, 5, 30, 20⟩ : Obstacle)],
        (⟨0, 10, 11, 30, 20⟩ : Obstacle).id = o₀.id ∧
        (⟨0, 10, 11, 30, 20⟩ : Obstacle).x = o₀.x ∧
        (⟨0, 10, 11, 30, 20⟩ : Obstacle).width = o₀.width ∧
        (⟨0, 10, 11, 30, 20⟩ : Obstacle).height = o₀.height ∧
        (⟨0, 10, 11, 30, 20⟩ : Obstacle).y = o₀.y + totalAdvance [(3, 2)]) ∧
    (updateObstaclesWithDelta exPlaying (1/3)).obstacles =
        runIntegrator exPlaying.screenH exPlaying.obstacles
          [(exPlaying.difficulty.obstacleSpeed, 1/3)] :=
  ⟨motion_determinism.1 800 [⟨0, 10, 5, 30, 20⟩] [⟨0, 10, 5, 30, 20⟩]
      [(3, 2)] [(3, 2)] rfl rfl,
   motion_determinism.2.1 800 [⟨0, 10, 5, 30, 20⟩] [(3, 2)] ⟨0, 10, 11, 30, 20⟩
     (by norm_num [runIntegrator, integratorStep, moveObstacle, List.filter]),
   motion_determinism.2.2 exPlaying (1/3) rfl⟩

/-! Claim C9. -/

/-- The bounded-retry fallback of the PhysicsEngine spawner always lands in
`[0, screenW - width]` when every draw lies in `[0, 1]`. -/
theorem physFallbackX_bounds (W width c : ℚ) (hw : 0 ≤ W - width) :
    ∀ rs : List ℚ, (∀ r ∈ rs, 0 ≤ r ∧ r ≤ 1) →
      0 ≤ physFallbackX W width c rs ∧ physFallbackX W width c rs ≤ W - width := by
  intro rs
  induction rs with
  | nil =>
    intro _
    exact ⟨le_refl 0, hw⟩
  | cons r rs ih =>
    intro hmem
    have hr := hmem r (by simp)
    have hbound : 0 ≤ r * (W - width) ∧ r * (W - width) ≤ W - width :=
      ⟨mul_nonneg hr.1 hw, mul_le_of_le_one_left hw hr.2⟩
    simp only [physFallbackX]
    split_ifs with habs
    · exact ih fun x hx => hmem x (List.mem_cons_of_mem r hx)
    · exact hbound

/-- Counterexample to C9: the PhysicsEngine placement has no fallback
clamp, and once `difficultyMultiplier` exceeds 6 the safe-zone width
`PLAYER_SIZE * (3 - dm * 0.5)` is negative, so `safeZoneRight` can drop
below 0 and the right-side branch places the obstacle off screen.  At
`dm = 12` (difficulty level 115), player at the left clamp (centre
`x = 20`) on a 400-wide screen, a width-50 obstacle with side coin `1/2`
and placement draw `0` — both valid draws in `[0, 1)` — lands at
`x = -20 < 0`, violating `0 ≤ x`. -/
theorem spawn_x_counterexample :
    physicsObstacleX 400 20 50 12 (1/2) 0 [] = -20 ∧ ((-20 : ℚ) < 0) := by
  constructor
  · norm_num [physicsObstacleX, physSafeZoneLeft, physSafeZoneRight,
      PLAYER_SIZE, max_def, min_def]
  · norm_num

/-- Claim C9 amended: the GameEngine `generateObstacle` placement always
lies in `[0, screenW - width]` (its fallback reassignment re-draws any
out-of-range branch value); the PhysicsEngine `ObstacleGenerator`
placement lies in `[0, screenW - width]` only while the safe-zone width is
non-negative, i.e. `difficultyMultiplier ≤ 6` (difficulty level at most
55) — beyond that its right-side branch can place an obstacle at a
negative `x`, as it has no fallback clamp. -/
theorem spawn_x_in_bounds :
    (∀ W pos width r1 r2 rFB : ℚ, 0 ≤ rFB → rFB ≤ 1 → width ≤ W →
        0 ≤ generateObstacleX W pos width r1 r2 rFB ∧
          generateObstacleX W pos width r1 r2 rFB ≤ W - width) ∧
    (∀ (W playerX width dm rSide rPlace : ℚ) (rFB : List ℚ),
        0 ≤ width → width ≤ W → 0 ≤ playerX → playerX ≤ W →
        0 ≤ dm → dm ≤ 6 → 0 ≤ rPlace → rPlace ≤ 1 →
        (∀ r ∈ rFB, 0 ≤ r ∧ r ≤ 1) →
        0 ≤ physicsObstacleX W playerX width dm rSide rPlace rFB ∧
          physicsObstacleX W playerX width dm rSide rPlace rFB ≤ W - width) := by
  constructor
  · intro W pos width r1 r2 rFB h0 h1 hw
    simp only [generateObstacleX]
    split_ifs with hbad
    · exact ⟨mul_nonneg h0 (by linarith),
        mul_le_of_le_one_left (by linarith) h1⟩
    · push_neg at hbad
      exact hbad
  · intro W playerX width dm rSide rPlace rFB hw0 hwW hp0 hpW hdm0 hdm6 hrp0 hrp1 hmem
    have hW0 : (0 : ℚ) ≤ W := le_trans hw0 hwW
    have hL0 : 0 ≤ physSafeZoneLeft playerX dm := le_max_left _ _
    have hLp : physSafeZoneLeft playerX dm ≤ playerX :=
      max_le hp0 (by simp only [PLAYER_SIZE]; linarith)
    have hLW : physSafeZoneLeft playerX dm ≤ W := le_trans hLp hpW
    have hR0 : 0 ≤ physSafeZoneRight W playerX dm :=
      le_min hW0 (by simp only [PLAYER_SIZE]; linarith)
    have hRW : physSafeZoneRight W playerX dm ≤ W := min_le_left _ _
    simp only [physicsObstacleX]
    split_ifs with hboth hside hleft hright
    · exact ⟨mul_nonneg hrp0 (by linarith [hboth.1]),
        le_trans (mul_le_of_le_one_left (by linarith [hboth.1]) hrp1)
          (by linarith)⟩
    · refine ⟨add_nonneg hR0 (mul_nonneg hrp0 (by linarith [hboth.2])), ?_⟩
      have hmul := mul_le_of_le_one_left
        (show (0 : ℚ) ≤ W - physSafeZoneRight W playerX dm - width by
          linarith [hboth.2]) hrp1
      linarith
    · exact ⟨mul_nonneg hrp0 (by linarith),
        le_trans (mul_le_of_le_one_left (by linarith) hrp1) (by linarith)⟩
    · refine ⟨add_nonneg hR0 (mul_nonneg hrp0 (by linarith)), ?_⟩
      have hmul := mul_le_of_le_one_left
        (show (0 : ℚ) ≤ W - physSafeZoneRight W playerX dm - width by
          linarith) hrp1
      linarith
    · exact physFallbackX_bounds W width playerX (by linarith) rFB hmem

/-- Witness for C9 at concrete placement inputs for both spawners. -/
theorem spawn_x_in_bounds_witness :
    (0 ≤ generateObstacleX 400 180 50 (1/2) (3/4) (1/2) ∧
      generateObstacleX 400 180 50 (1/2) (3/4) (1/2) ≤ 400 - 50) ∧
    (0 ≤ physicsObstacleX 400 200 50 1 (1/2) (1/2) [1/2] ∧
      physicsObstacleX 400 200 50 1 (1/2) (1/2) [1/2] ≤ 400 - 50) :=
  ⟨spawn_x_in_bounds.1 400 180 50 (1/2) (3/4) (1/2)
      (by norm_num) (by norm_num) (by norm_num),
   spawn_x_in_bounds.2 400 200 50 1 (1/2) (1/2) [1/2]
     (by norm_num) (by norm_num) (by norm_num) (by norm_num) (by norm_num)
     (by norm_num) (by norm_num) (by norm_num)
     (by intro r hr; simp at hr; rw [hr]; norm_num)⟩

/-! Claim C4. -/

/-- A concrete idle state on a 400 x 800 screen used as the start of the
C4 scenario trace. -/
def exC4Start : EngineState :=
  { screenW := 400, screenH := 800, gameState := .idle, score := 0,
    playerPos := 200, obstacles := [], nextObstacleId := 0,
    difficulty := ⟨1, 3, 2000⟩, scoreTimerOn := false, genTimerOn := false,
    diffTimerOn := false, gameOverEvents := [] }

/-- The scenario after start and countdown completion: `initializeGame`
then `startGame` (which spawns the first obstacle), with all random draws
fixed to `0`. -/
def c4Playing : EngineState := startGame (initializeGame exC4Start) 0 0 0 0 0 0

/-- Evaluation of the scenario start: playing, score 0, player centred at
180, one obstacle spawned at `x = 300` above the screen, all timers
running. -/
theorem c4Playing_eq :
    c4Playing =
      { screenW := 400, screenH := 800, gameState := .playing, score := 0,
        playerPos := 180, obstacles := [⟨0, 300, -20, 30, 20⟩], nextObstacleId := 1,
        difficulty := ⟨1, 3, 2000⟩, scoreTimerOn := true, genTimerOn := true,
        diffTimerOn := true, gameOverEvents := [] } := by
  norm_num [c4Playing, startGame, initializeGame, exC4Start, generateObstacle,
    generateObstacleX, generateObstacleRawX, PLAYER_SIZE, MAX_OBSTACLES,
    OBSTACLE_MIN_WIDTH, OBSTACLE_MAX_WIDTH, OBSTACLE_MIN_HEIGHT,
    OBSTACLE_MAX_HEIGHT, OBSTACLE_SPEED_INITIAL,
    OBSTACLE_GENERATION_INTERVAL_INITIAL]

/-- The scenario after 500 ms of play (five score ticks), two taps on the
right half moving the player under the obstacle's column, and one motion
update that brings the obstacle down to the player. -/
def c4AtCollision : EngineState :=
  updateObstaclesWithDelta
    (handleTap (handleTap (scoreTick (scoreTick (scoreTick (scoreTick
      (scoreTick c4Playing))))) 300) 300) 260

/-- Evaluation of the pre-collision state: score 5, player at 320, the
obstacle fallen to `y = 760`, still playing. -/
theorem c4AtCollision_eq :
    c4AtCollision =
      { screenW := 400, screenH := 800, gameState := .playing, score := 5,
        playerPos := 320, obstacles := [⟨0, 300, 760, 30, 20⟩], nextObstacleId := 1,
        difficulty := ⟨1, 3, 2000⟩, scoreTimerOn := true, genTimerOn := true,
        diffTimerOn := true, gameOverEvents := [] } := by
  rw [c4AtCollision, c4Playing_eq]
  simp +decide [scoreTick, handleTap, updateObstaclesWithDelta, integratorStep,
    moveObstacle, List.filter, PLAYER_SIZE, PLAYER_MOVE_DISTANCE,
    (by norm_num : ¬((300 : ℚ) < 400 / 2))]
  norm_num [min_def]

/-- The end of the scenario: the collision sweep detects the overlap and
runs the game-over transition. -/
def c4Final : EngineState := checkCollisions c4AtCollision

/-- Evaluation of the final state: gameover, score frozen at 5, every
timer stopped, and exactly one `gameOver` event carrying the final
score 5. -/
theorem c4Final_eq :
    c4Final =
      { screenW := 400, screenH := 800, gameState := .gameover, score := 5,
        playerPos := 320, obstacles := [⟨0, 300, 760, 30, 20⟩], nextObstacleId := 1,
        difficulty := ⟨1, 3, 2000⟩, scoreTimerOn := false, genTimerOn := false,
        diffTimerOn := false, gameOverEvents := [5] } := by
  rw [c4Final, c4AtCollision_eq]
  simp +decide [checkCollisions, collidesWithPlayer, handleGameOver, List.any,
    PLAYER_SIZE, PLATFORM_HEIGHT]
  norm_num

/-- Claim C4: the score is a natural number that starts at 0 on a new
game, increments by 1 per firing of the 100 ms score interval while it
runs, is frozen by the game-over transition (which stops the interval),
and the `gameOver` event fires exactly once carrying the final score; in
the concrete scenario, a collision after five score ticks of playing
yields the single event with final score 5, and repeating the collision
check, score tick, or game-over handler afterwards changes nothing. -/
theorem score_semantics :
    (∀ s : EngineState, (initializeGame s).score = 0) ∧
    (∀ s : EngineState, s.scoreTimerOn = true →
        (scoreTick s).score = s.score + 1) ∧
    (∀ s : EngineState, s.scoreTimerOn = false → scoreTick s = s) ∧
    (∀ s : EngineState, s.gameState ≠ .gameover →
        (handleGameOver s).gameOverEvents = s.gameOverEvents ++ [s.score] ∧
        (handleGameOver s).score = s.score ∧
        (handleGameOver s).scoreTimerOn = false) ∧
    (c4Final.gameState = .gameover ∧ c4Final.score = 5 ∧
      c4Final.gameOverEvents = [5] ∧
      handleGameOver c4Final = c4Final ∧ scoreTick c4Final = c4Final ∧
      checkCollisions c4Final = c4Final) := by
  refine ⟨fun s => rfl, ?_, ?_, ?_, ?_⟩
  · intro s h
    simp [scoreTick, h]
  · intro s h
    simp [scoreTick, h]
  · intro s h
    simp only [handleGameOver]
    rw [if_neg h]
    exact ⟨rfl, rfl, rfl⟩
  · rw [c4Final_eq]
    refine ⟨rfl, rfl, rfl, ?_, ?_, ?_⟩
    · simp [handleGameOver]
    · simp [scoreTick]
    · simp [checkCollisions]

/-- Witness for C4 at the concrete states of the scenario trace. -/
theorem score_semantics_witness :
    (initializeGame exC4Start).score = 0 ∧
    (scoreTick c4Playing).score = c4Playing.score + 1 ∧
    scoreTick exC4Start = exC4Start ∧
    ((handleGameOver c4AtCollision).gameOverEvents =
        c4AtCollision.gameOverEvents ++ [c4AtCollision.score] ∧
      (handleGameOver c4AtCollision).score = c4AtCollision.score ∧
      (handleGameOver c4AtCollision).scoreTimerOn = false) ∧
    c4Final.score = 5 ∧ c4Final.gameOverEvents = [5] :=
  ⟨score_semantics.1 exC4Start,
   score_semantics.2.1 c4Playing (by rw [c4Playing_eq]),
   score_semantics.2.2.1 exC4Start rfl,
   score_semantics.2.2.2.1 c4AtCollision (by rw [c4AtCollision_eq]; simp),
   score_semantics.2.2.2.2.2.1,
   score_semantics.2.2.2.2.2.2.1⟩

end TapDodge
